import Mathlib

/-!
Formal model of the MyFitnessPal MCP server repository
(`server.py`, `api_client.py`, `utils.py`), as a shallow embedding in Lean.

Numbers are modelled as rationals, dictionaries as association lists,
raised exceptions as `Except String`, and the lazy generator of
`get_date_range` as the finite list it yields.  Python `date` objects are
modelled both as `(year, month, day)` records (`Date`) and, where the code
only steps through consecutive days and compares, by their ordinal day
number (`dateOrd`, the analogue of `date.toordinal()`).
-/

/-- Value of an ASCII digit character, `none` for anything that is not a
digit (models the `\d` character class applied by `strptime`). -/
def digitVal (c : Char) : Option Nat :=
  if 48 ≤ c.toNat ∧ c.toNat ≤ 57 then some (c.toNat - 48) else none

/-- Boolean check that `pat` is a prefix of the second list. -/
def listStarts : List Char → List Char → Bool
  | [], _ => true
  | _ :: _, [] => false
  | a :: as, b :: bs => a == b && listStarts as bs

/-- Boolean check that `pat` occurs contiguously inside the second list. -/
def listHasInfix (pat : List Char) : List Char → Bool
  | [] => pat.isEmpty
  | c :: rest => listStarts pat (c :: rest) || listHasInfix pat rest

/-- Substring occurrence test on strings. -/
def strContains (s pat : String) : Bool := listHasInfix pat.data s.data

/-- String prefix test. -/
def strStarts (s pat : String) : Bool := listStarts pat.data s.data

/-- Rounding to the nearest integer with ties going to the even integer,
as used by Python float formatting. -/
def roundHalfEven (q : ℚ) : ℤ :=
  let f : ℤ := ⌊q⌋
  let r : ℚ := q - (f : ℚ)
  if r < 1/2 then f
  else if 1/2 < r then f + 1
  else if f % 2 = 0 then f else f + 1

/-- Python format spec `:.0f` (render with no decimal places). -/
def fmt0 (q : ℚ) : String :=
  let n := roundHalfEven q
  (if n < 0 then "-" else "") ++ toString n.natAbs

/-- Python format spec `:.1f` (render with one decimal place). -/
def fmt1 (q : ℚ) : String :=
  let n := roundHalfEven (q * 10)
  (if n < 0 then "-" else "") ++ toString (n.natAbs / 10) ++ "." ++ toString (n.natAbs % 10)

/-- A calendar date as carried by Python `datetime.date`. -/
structure Date where
  y : Nat
  m : Nat
  d : Nat
  deriving DecidableEq

/-- Gregorian leap-year rule (as in Python `calendar.isleap` /
`datetime`). -/
def isLeap (y : Nat) : Bool := y % 4 = 0 && (y % 100 ≠ 0 || y % 400 = 0)

/-- Number of days in a month of a given year (as validated by the
`datetime.date` constructor). -/
def daysInMonth (y m : Nat) : Nat :=
  if m = 2 then (if isLeap y then 29 else 28)
  else if m = 4 ∨ m = 6 ∨ m = 9 ∨ m = 11 then 30
  else 31

/-- Days of year `y` that precede month `m` (used by the ordinal). -/
def daysBeforeMonth (y m : Nat) : Nat :=
  (List.range (m - 1)).foldl (fun a i => a + daysInMonth y (i + 1)) 0

/-- Ordinal day number of a date, the analogue of Python
`date.toordinal()` (day 1 is 0001-01-01).  Python `date` comparison and
`timedelta(days=1)` stepping coincide with `Nat` comparison and successor
on this ordinal. -/
def dateOrd (dt : Date) : Nat :=
  365 * (dt.y - 1) + (dt.y - 1) / 4 + (dt.y - 1) / 400 - (dt.y - 1) / 100
    + daysBeforeMonth dt.y dt.m + dt.d

/-- English month name, as produced by `strftime` `%B`. -/
def monthName : Nat → String
  | 1 => "January" | 2 => "February" | 3 => "March" | 4 => "April"
  | 5 => "May" | 6 => "June" | 7 => "July" | 8 => "August"
  | 9 => "September" | 10 => "October" | 11 => "November" | 12 => "December"
  | _ => ""

/-- Zero-padding to two digits, as in `strftime` `%d` / `%m`. -/
def pad2 (n : Nat) : String := if n < 10 then "0" ++ toString n else toString n

/-- Rendering of `strftime('%B %d, %Y')`, used in all report headers. -/
def strftimeBdY (dt : Date) : String :=
  monthName dt.m ++ " " ++ pad2 dt.d ++ ", " ++ toString dt.y

/-- Rendering of `strftime('%Y-%m-%d')`, used in range breakdown lines. -/
def strftimeIso (dt : Date) : String :=
  toString dt.y ++ "-" ++ pad2 dt.m ++ "-" ++ pad2 dt.d

/-- Month part of CPython `strptime` with format `%Y-%m-%d`: the regex
fragment `(1[0-2]|0[1-9]|[1-9])` followed by the literal dash.  Returns
the month value and the remaining characters after the dash.  A two-digit
match is taken when the character after the first digit is not the dash,
exactly as the backtracking regex behaves. -/
def parseMonthSplit (l : List Char) : Option (Nat × List Char) :=
  match l with
  | m1 :: rest1 =>
    match rest1 with
    | r0 :: rest2 =>
      if r0 = '-' then
        match digitVal m1 with
        | some v => if 1 ≤ v then some (v, rest2) else none
        | none => none
      else
        match rest2 with
        | r1 :: rest3 =>
          if r1 = '-' then
            match digitVal m1, digitVal r0 with
            | some v1, some v2 =>
              if (v1 = 1 ∧ v2 ≤ 2) ∨ (v1 = 0 ∧ 1 ≤ v2) then
                some (10 * v1 + v2, rest3)
              else none
            | _, _ => none
          else none
        | [] => none
    | [] => none
  | [] => none

/-- Day part of CPython `strptime` with format `%Y-%m-%d`: the regex
fragment `(3[01]|[12]\d|0[1-9]|[1-9])` anchored at the end of the
input (any leftover characters make `strptime` fail with unconverted
data). -/
def parseDayEnd (l : List Char) : Option Nat :=
  match l with
  | [d1] =>
    match digitVal d1 with
    | some v => if 1 ≤ v then some v else none
    | none => none
  | [d1, d2] =>
    match digitVal d1, digitVal d2 with
    | some v1, some v2 =>
      if (v1 = 3 ∧ v2 ≤ 1) ∨ v1 = 1 ∨ v1 = 2 ∨ (v1 = 0 ∧ 1 ≤ v2) then
        some (10 * v1 + v2)
      else none
    | _, _ => none
  | _ => none

/-- Shape matching of CPython `strptime(s, '%Y-%m-%d')`: exactly four
digits of year, a dash, the month fragment, a dash, the day fragment,
end of string. -/
def parseYmdPattern (cs : List Char) : Option (Nat × Nat × Nat) :=
  match cs with
  | c1 :: c2 :: c3 :: c4 :: c5 :: rest =>
    if c5 = '-' then
      match digitVal c1, digitVal c2, digitVal c3, digitVal c4 with
      | some a, some b, some c, some d =>
        match parseMonthSplit rest with
        | some (m, rest2) =>
          match parseDayEnd rest2 with
          | some dd => some (((a * 10 + b) * 10 + c) * 10 + d, m, dd)
          | none => none
        | none => none
      | _, _, _, _ => none
    else none
  | _ => none

/-- Full model of `datetime.strptime(s, '%Y-%m-%d').date()`: the regex
shape above followed by the `datetime` constructor validity check
(year at least 1, day within the month; the month range 1..12 and the
day lower bound are already enforced by the regex fragments).  The
digit class is modelled as the ASCII digits 0-9; exotic non-ASCII
decimal digits, which the Python regex `\d` would also admit, are
outside the model. -/
def strptimeYmd (s : String) : Option (Nat × Nat × Nat) :=
  match parseYmdPattern s.data with
  | some (y, m, d) => if 1 ≤ y ∧ d ≤ daysInMonth y m then some (y, m, d) else none
  | none => none

/-- Model of `parse_date` in `server.py`: absent or empty input gives
today, otherwise `strptime` with `%Y-%m-%d`, converting its failure into
the invalid-format error message. -/
def parse_date (today : Date) (date_str : Option String) : Except String Date :=
  match date_str with
  | none => .ok today
  | some s =>
    if s = "" then .ok today
    else
      match strptimeYmd s with
      | some (y, m, d) => .ok ⟨y, m, d⟩
      | none => .error ("Invalid date format: " ++ s ++ ". Use YYYY-MM-DD")

/-- Modelled from the spec: the exact shape `YYYY-MM-DD` demanded by the
specification text, a four-digit year, a dash, a two-digit month, a dash
and a two-digit day.  This follows the words of the spec and is compared
against the source-derived parser. -/
def specPatternYMD (s : String) : Bool :=
  match s.data with
  | [a, b, c, d, h1, e, f, h2, g, h] =>
    h1 = '-' && h2 = '-' && (digitVal a).isSome && (digitVal b).isSome &&
      (digitVal c).isSome && (digitVal d).isSome && (digitVal e).isSome &&
      (digitVal f).isSome && (digitVal g).isSome && (digitVal h).isSome
  | _ => false

/-- Numeric value of a digit string. -/
def digitsToNat (cs : List Char) : Nat := cs.foldl (fun a c => a * 10 + (c.toNat - 48)) 0

/-- All characters are ASCII digits. -/
def allDigits (cs : List Char) : Bool := cs.all (fun c => (digitVal c).isSome)

/-- The shapes of strings actually accepted by `strptime` with format
`%Y-%m-%d`: four year digits, dash, one or two month digits denoting
1..12, dash, one or two day digits denoting 1..31. -/
def strptimeShape (s : String) (y m d : Nat) : Prop :=
  ∃ ys ms ds : List Char,
    s.data = ys ++ '-' :: ms ++ '-' :: ds ∧
    ys.length = 4 ∧ allDigits ys = true ∧
    (ms.length = 1 ∨ ms.length = 2) ∧ allDigits ms = true ∧
    (ds.length = 1 ∨ ds.length = 2) ∧ allDigits ds = true ∧
    y = digitsToNat ys ∧ m = digitsToNat ms ∧ d = digitsToNat ds ∧
    1 ≤ m ∧ m ≤ 12 ∧ 1 ≤ d ∧ d ≤ 31

/-- Nutrition mapping lookup with default, the model of Python
`dict.get(key, default)` on the nutrition dictionaries. -/
def lookupD (l : List (String × ℚ)) (k : String) (v0 : ℚ) : ℚ :=
  ((l.lookup k).getD v0)

/-- One logged food item or exercise activity (library `Entry`). -/
structure Entry where
  name : String
  quantity : ℚ
  unit : String
  nutrition_information : List (String × ℚ)
  deriving DecidableEq

/-- A named grouping of food entries within a day (library `Meal`). -/
structure Meal where
  name : String
  totals : List (String × ℚ)
  entries : List Entry
  deriving DecidableEq

/-- An exercise category holding logged activities (library `Exercise`). -/
structure Exercise where
  name : String
  entries : List Entry
  deriving DecidableEq

/-- One calendar day of data as returned by the scraping library
(`Day` in the spec data model).  The `date` field is the calendar date
the library stamped on the record. -/
structure Day where
  date : Date
  totals : List (String × ℚ)
  goals : List (String × ℚ)
  water : ℚ
  meals : List Meal
  exercises : List Exercise
  complete : Bool
  deriving DecidableEq

/-- JSON values, for the serialized cookie mapping consumed by
`_load_cookies_from_env` (the parsing itself, `json.loads`, is the
standard-library collaborator and enters as an oracle). -/
inductive Json where
  | null : Json
  | bool (b : Bool) : Json
  | num (q : ℚ) : Json
  | str (s : String) : Json
  | arr (elems : List Json) : Json
  | obj (fields : List (String × Json)) : Json

/-- Field lookup in a JSON object field list (Python `dict` lookup). -/
def jlookup (fields : List (String × Json)) (k : String) : Option Json :=
  fields.lookup k

/-- Python `.items()` on a parsed JSON value: succeeds only on an
object, any other value raises (AttributeError), which the loader
catches. -/
def jsonAsObj (j : Json) : Except String (List (String × Json)) :=
  match j with
  | .obj fields => .ok fields
  | _ => .error "value has no items method"

/-- A reconstructed `http.cookiejar.Cookie` as built by
`_load_cookies_from_env`.  Constant constructor arguments of the source
(version 0, no port, no expiry, discard, rfc2109 false) are omitted. -/
structure Cookie where
  name : String
  value : Json
  domain : Json
  domain_initial_dot : Bool
  path : Json
  secure : Json

/-- Construction of one cookie from one `name -> data` item of the
serialized mapping, modelling the body of the `for` loop in
`_load_cookies_from_env`; any raising subscript or attribute access
becomes an error that the surrounding `try` turns into a warning. -/
def buildCookie (name : String) (data : Json) : Except String Cookie := do
  let fields ← jsonAsObj data
  let value ← match jlookup fields "value" with
    | some v => Except.ok v
    | none => Except.error "KeyError: value"
  let domain := (jlookup fields "domain").getD (.str ".myfitnesspal.com")
  let dotSource := (jlookup fields "domain").getD (.str "")
  let initialDot ← match dotSource with
    | .str s => Except.ok (strStarts s ".")
    | _ => Except.error "AttributeError: startswith"
  let path := (jlookup fields "path").getD (.str "/")
  let secure := (jlookup fields "secure").getD (.bool false)
  Except.ok { name := name, value := value, domain := domain,
              domain_initial_dot := initialDot, path := path, secure := secure }

/-- Model of `MyFitnessPalClient._load_cookies_from_env`.  `parse` is the
`json.loads` collaborator, `env` the `MFP_COOKIES` environment variable.
The result pairs the optional cookie jar with the number of warnings
printed: the single `except` clause prints exactly one warning and
returns `None`. -/
def _load_cookies_from_env (parse : String → Except String Json)
    (env : Option String) : Option (List Cookie) × Nat :=
  match env with
  | none => (none, 0)
  | some s =>
    if s = "" then (none, 0)
    else
      match (do
        let j ← parse s
        let fields ← jsonAsObj j
        fields.mapM (fun nd => buildCookie nd.1 nd.2) : Except String (List Cookie)) with
      | .ok jar => (some jar, 0)
      | .error _ => (none, 1)

/-- Which authentication source `MyFitnessPalClient.__init__` ends up
using. -/
inductive AuthSource where
  | cookies (jar : List Cookie) : AuthSource
  | browser : AuthSource

/-- The authentication selection of `MyFitnessPalClient.__init__`:
a successfully reconstructed jar is used, otherwise the ambient browser
session. -/
def clientInit (parse : String → Except String Json) (env : Option String) : AuthSource :=
  match (_load_cookies_from_env parse env).1 with
  | some jar => .cookies jar
  | none => .browser

/-- An opaque constructed client value (the wrapped library client). -/
structure Client where
  source : AuthSource

/-- `MyFitnessPalClient.__init__` with the underlying library
constructors as oracles: each branch simply calls the corresponding
`myfitnesspal.Client` constructor, and any error it raises propagates
out of `__init__` unhandled. -/
def clientInitE (parse : String → Except String Json) (env : Option String)
    (mkCookieClient : List Cookie → Except String Client)
    (mkBrowserClient : Except String Client) : Except String Client :=
  match (_load_cookies_from_env parse env).1 with
  | some jar => mkCookieClient jar
  | none => mkBrowserClient

/-- Loop body iteration of `MyFitnessPalClient.get_date_range`: the
`while current <= end_date` loop executes exactly `e + 1 - start` times,
which the embedding passes as structural fuel; each iteration yields the
fetched day when `get_day` succeeds and silently skips it when `get_day`
raises (`fetch` models `get_day`; a raised exception is its `error`
case). -/
def get_date_range_go (fetch : Nat → Except String Day) : Nat → Nat → List Day
  | _, 0 => []
  | current, fuel + 1 =>
    (match fetch current with
     | .ok d => [d]
     | .error _ => []) ++ get_date_range_go fetch (current + 1) fuel

/-- Model of `MyFitnessPalClient.get_date_range`: steps through the
ordinals from `start` to `e` inclusive.  `get_date_range_loop` below
recovers the literal source loop shape from the fuel form. -/
def get_date_range (fetch : Nat → Except String Day) (start e : Nat) : List Day :=
  get_date_range_go fetch start (e + 1 - start)

/-- One text content block of a tool response (`mcp.types.TextContent`). -/
structure TextContent where
  text : String
  deriving DecidableEq

/-- `fastmcp` tool result as built by `utils.text_response`. -/
structure ToolResult where
  content : List TextContent
  structured_content : Option Unit
  deriving DecidableEq

/-- Model of `utils.text_response`: a single plain-text block, with
structured content explicitly disabled. -/
def text_response (t : String) : ToolResult :=
  { content := [{ text := t }], structured_content := none }

/-- Totals accumulated by the exercise loop of `get_daily_summary`:
`(calories burned, minutes, entry count)`.  Calories burned are added
unconditionally with default 0; minutes are added only when the fetched
value is truthy (`if minutes:`), and each entry bumps the count. -/
def summaryExerciseStats (exercises : List Exercise) : ℚ × ℚ × Nat :=
  exercises.foldl (fun acc ex =>
    ex.entries.foldl (fun acc2 entry =>
      let nutrition := entry.nutrition_information
      (acc2.1 + lookupD nutrition "calories burned" 0,
       (match nutrition.lookup "minutes" with
        | some v => if v ≠ 0 then acc2.2.1 + v else acc2.2.1
        | none => acc2.2.1),
       acc2.2.2 + 1)) acc) (0, 0, 0)

/-- The markdown body of `get_daily_summary` (the f-string of
`server.py`, lines 109-132). -/
def render_daily_summary (target : Date) (day : Day) : String :=
  let totals := day.totals
  let goals := day.goals
  let calories := lookupD totals "calories" 0
  let carbs := lookupD totals "carbohydrates" 0
  let fat := lookupD totals "fat" 0
  let protein := lookupD totals "protein" 0
  let calorie_goal := lookupD goals "calories" 0
  let carb_goal := lookupD goals "carbohydrates" 0
  let fat_goal := lookupD goals "fat" 0
  let protein_goal := lookupD goals "protein" 0
  let water_ml := day.water
  let water_oz := water_ml / 29.5735
  let water_cups := water_ml / 236.588
  let stats := summaryExerciseStats day.exercises
  "# Daily Summary for " ++ strftimeBdY target ++
  "\n\n## Calories\n- **Consumed**: " ++ fmt0 calories ++
  " kcal\n- **Goal**: " ++ fmt0 calorie_goal ++
  " kcal\n- **Remaining**: " ++ fmt0 (calorie_goal - calories) ++
  " kcal\n\n## Macronutrients\n- **Carbohydrates**: " ++ fmt0 carbs ++ "g / " ++ fmt0 carb_goal ++
  "g\n- **Fat**: " ++ fmt0 fat ++ "g / " ++ fmt0 fat_goal ++
  "g\n- **Protein**: " ++ fmt0 protein ++ "g / " ++ fmt0 protein_goal ++
  "g\n\n## Exercise\n- **Activities**: " ++ toString stats.2.2 ++
  "\n- **Duration**: " ++ fmt0 stats.2.1 ++
  " minutes\n- **Calories Burned**: " ++ fmt0 stats.1 ++
  " kcal\n\n## Water Intake\n- **Amount**: " ++ fmt0 water_oz ++ " oz (" ++ fmt1 water_cups ++
  " cups, " ++ fmt0 water_ml ++
  " ml)\n\n## Status\n- **Day Complete**: " ++ (if day.complete then "Yes" else "No") ++
  "\n- **Meals Logged**: " ++ toString day.meals.length ++ "\n"

/-- Tool `get_daily_summary`: parse the optional date, construct the
client, fetch the day, render; any error becomes the uniform text
response.  `getClient` and `fetch` are the client-construction and
single-day-fetch collaborators. -/
def get_daily_summary (today : Date) (getClient : Except String Client)
    (fetch : Nat → Except String Day) (dateArg : Option String) : ToolResult :=
  match (do
    let target ← parse_date today dateArg
    let _ ← getClient
    let day ← fetch (dateOrd target)
    Except.ok (render_daily_summary target day) : Except String String) with
  | .ok s => text_response s
  | .error e => text_response ("Error retrieving daily summary: " ++ e)

/-- Python `str` applied to a numeric quantity where the source
interpolates it raw (the serving quantity of the meals report).  Python
prints floats in decimal; that exact textual form is irrelevant to every
claim, so integers are printed exactly and non-integers as fractions. -/
def pyNumStr (q : ℚ) : String :=
  if q.den = 1 then toString q.num else toString q.num ++ "/" ++ toString q.den

/-- The block of lines produced for one food entry inside
`get_daily_meals`. -/
def mealEntryBlock (entry : Entry) : String :=
  let nutrition := entry.nutrition_information
  "- **" ++ entry.name ++ "**\n" ++
  "  - Serving: " ++ pyNumStr entry.quantity ++ " " ++ entry.unit ++ "\n" ++
  "  - Calories: " ++ fmt0 (lookupD nutrition "calories" 0) ++ " kcal\n" ++
  "  - Macros: " ++ fmt0 (lookupD nutrition "carbohydrates" 0) ++ "C / " ++
  fmt0 (lookupD nutrition "fat" 0) ++ "F / " ++
  fmt0 (lookupD nutrition "protein" 0) ++ "P\n"

/-- The block of lines produced for one meal inside `get_daily_meals`. -/
def mealBlock (meal : Meal) : String :=
  let meal_totals := meal.totals
  "## " ++ meal.name ++ "\n" ++
  "**Total**: " ++ fmt0 (lookupD meal_totals "calories" 0) ++ " kcal" ++
  " (" ++ fmt0 (lookupD meal_totals "carbohydrates" 0) ++ "C / " ++
  fmt0 (lookupD meal_totals "fat" 0) ++ "F / " ++
  fmt0 (lookupD meal_totals "protein" 0) ++ "P)\n\n" ++
  (if meal.entries.isEmpty then "No foods logged in this meal.\n\n"
   else String.join (meal.entries.map mealEntryBlock) ++ "\n")

/-- The markdown body of `get_daily_meals`. -/
def render_daily_meals (target : Date) (day : Day) : String :=
  "# Meals for " ++ strftimeBdY target ++ "\n\n" ++
  (if day.meals.isEmpty then "No meals logged for this day.\n"
   else String.join (day.meals.map mealBlock))

/-- Tool `get_daily_meals` with its failure boundary. -/
def get_daily_meals (today : Date) (getClient : Except String Client)
    (fetch : Nat → Except String Day) (dateArg : Option String) : ToolResult :=
  match (do
    let target ← parse_date today dateArg
    let _ ← getClient
    let day ← fetch (dateOrd target)
    Except.ok (render_daily_meals target day) : Except String String) with
  | .ok s => text_response s
  | .error e => text_response ("Error retrieving meals: " ++ e)

/-- The block produced for one exercise entry inside
`get_daily_exercise`: name line, duration line only when `minutes` is
present and truthy, calories line only when `calories burned` is truthy,
then a blank line. -/
def exerciseEntryBlock (entry : Entry) : String :=
  let nutrition := entry.nutrition_information
  "- **" ++ entry.name ++ "**\n" ++
  (match nutrition.lookup "minutes" with
   | some v => if v ≠ 0 then "  - Duration: " ++ fmt0 v ++ " minutes\n" else ""
   | none => "") ++
  (if lookupD nutrition "calories burned" 0 ≠ 0 then
    "  - Calories Burned: " ++ fmt0 (lookupD nutrition "calories burned" 0) ++ " kcal\n"
   else "") ++ "\n"

/-- Total truthy minutes over a list of exercise entries (the
`total_minutes` accumulator of `get_daily_exercise`). -/
def exTotalMinutes (entries : List Entry) : ℚ :=
  entries.foldl (fun acc e =>
    match e.nutrition_information.lookup "minutes" with
    | some v => if v ≠ 0 then acc + v else acc
    | none => acc) 0

/-- Total truthy calories burned over a list of exercise entries (the
`total_calories` accumulator of `get_daily_exercise`). -/
def exTotalCalories (entries : List Entry) : ℚ :=
  entries.foldl (fun acc e =>
    let c := lookupD e.nutrition_information "calories burned" 0
    if c ≠ 0 then acc + c else acc) 0

/-- The markdown body of `get_daily_exercise`: flattens the categories,
renders a single explanatory line when no categories or no entries
exist, otherwise the entry blocks plus the summary section whose total
lines appear only when positive. -/
def render_daily_exercise (target : Date) (day : Day) : String :=
  "# Exercise for " ++ strftimeBdY target ++ "\n\n" ++
  (if day.exercises.isEmpty then "No exercise logged for this day.\n"
   else
    let all_entries := day.exercises.flatMap (·.entries)
    if all_entries.isEmpty then "No exercise logged for this day.\n"
    else
      String.join (all_entries.map exerciseEntryBlock) ++
      "## Summary\n" ++
      (if exTotalMinutes all_entries > 0 then
        "- **Total Duration**: " ++ fmt0 (exTotalMinutes all_entries) ++ " minutes\n"
       else "") ++
      (if exTotalCalories all_entries > 0 then
        "- **Total Calories Burned**: " ++ fmt0 (exTotalCalories all_entries) ++ " kcal\n"
       else ""))

/-- Tool `get_daily_exercise` with its failure boundary. -/
def get_daily_exercise (today : Date) (getClient : Except String Client)
    (fetch : Nat → Except String Day) (dateArg : Option String) : ToolResult :=
  match (do
    let target ← parse_date today dateArg
    let _ ← getClient
    let day ← fetch (dateOrd target)
    Except.ok (render_daily_exercise target day) : Except String String) with
  | .ok s => text_response s
  | .error e => text_response ("Error retrieving exercise: " ++ e)

/-- One rendered line of the macros report, before concatenation: a
nutrient rendered against a positive goal, a nutrient rendered bare, or
one of the indented fat sub-lines.  `render_daily_macros` maps these to
the exact strings of the source. -/
inductive NutrientLine where
  | withGoal (display : String) (value goal : ℚ) (unit : String) : NutrientLine
  | bare (display : String) (value : ℚ) (unit : String) : NutrientLine
  | fatSub (label : String) (value : ℚ) : NutrientLine
  deriving DecidableEq

/-- The inner `format_nutrient` helper of `get_daily_macros`: value and
goal looked up with default 0, goal-relative form exactly when the goal
is positive. -/
def format_nutrient (totals goals : List (String × ℚ))
    (name display unit : String) : NutrientLine :=
  let value := lookupD totals name 0
  let goal := lookupD goals name 0
  if goal > 0 then .withGoal display value goal unit
  else .bare display value unit

/-- Exact text of one `NutrientLine`, matching the f-strings of
`get_daily_macros` (percent is value over goal times 100, fat sub-lines
use one decimal place). -/
def renderNutrientLine : NutrientLine → String
  | .withGoal display value goal unit =>
      "- **" ++ display ++ "**: " ++ fmt0 value ++ unit ++ " / " ++ fmt0 goal ++ unit ++
      " (" ++ fmt0 (value / goal * 100) ++ "%)\n"
  | .bare display value unit =>
      "- **" ++ display ++ "**: " ++ fmt0 value ++ unit ++ "\n"
  | .fatSub label value =>
      "  - " ++ label ++ ": " ++ fmt1 value ++ "g\n"

/-- The conditionally rendered fat sub-lines: each appears exactly when
its key exists in `totals` (`'saturated fat' in totals` and so on), with
the value looked up with default 0. -/
def fatSubLines (totals : List (String × ℚ)) : List NutrientLine :=
  (if (totals.lookup "saturated fat").isSome then
    [.fatSub "Saturated" (lookupD totals "saturated fat" 0)] else []) ++
  (if (totals.lookup "polyunsaturated fat").isSome then
    [.fatSub "Polyunsaturated" (lookupD totals "polyunsaturated fat" 0)] else []) ++
  (if (totals.lookup "monounsaturated fat").isSome then
    [.fatSub "Monounsaturated" (lookupD totals "monounsaturated fat" 0)] else []) ++
  (if (totals.lookup "trans fat").isSome then
    [.fatSub "Trans" (lookupD totals "trans fat" 0)] else [])

/-- The macronutrient section lines of `get_daily_macros`: calories,
carbohydrates, protein and fat always, the fat sub-lines existence-gated,
then fiber and sugar always. -/
def macroLines (totals goals : List (String × ℚ)) : List NutrientLine :=
  [format_nutrient totals goals "calories" "Calories" "kcal",
   format_nutrient totals goals "carbohydrates" "Carbohydrates" "g",
   format_nutrient totals goals "protein" "Protein" "g",
   format_nutrient totals goals "fat" "Fat" "g"] ++
  fatSubLines totals ++
  [format_nutrient totals goals "fiber" "Fiber" "g",
   format_nutrient totals goals "sugar" "Sugar" "g"]

/-- The micronutrient section lines of `get_daily_macros`: each of the
seven nutrients is rendered (via `format_nutrient`) exactly when its key
exists in `totals`. -/
def microLines (totals goals : List (String × ℚ)) : List NutrientLine :=
  (if (totals.lookup "sodium").isSome then
    [format_nutrient totals goals "sodium" "Sodium" "mg"] else []) ++
  (if (totals.lookup "potassium").isSome then
    [format_nutrient totals goals "potassium" "Potassium" "mg"] else []) ++
  (if (totals.lookup "cholesterol").isSome then
    [format_nutrient totals goals "cholesterol" "Cholesterol" "mg"] else []) ++
  (if (totals.lookup "vitamin a").isSome then
    [format_nutrient totals goals "vitamin a" "Vitamin A" "%"] else []) ++
  (if (totals.lookup "vitamin c").isSome then
    [format_nutrient totals goals "vitamin c" "Vitamin C" "%"] else []) ++
  (if (totals.lookup "calcium").isSome then
    [format_nutrient totals goals "calcium" "Calcium" "%"] else []) ++
  (if (totals.lookup "iron").isSome then
    [format_nutrient totals goals "iron" "Iron" "%"] else [])

/-- The markdown body of `get_daily_macros`. -/
def render_daily_macros (target : Date) (day : Day) : String :=
  "# Macros & Nutrients for " ++ strftimeBdY target ++ "\n\n" ++
  "## Macronutrients\n" ++
  String.join ((macroLines day.totals day.goals).map renderNutrientLine) ++
  "\n" ++
  "## Micronutrients\n" ++
  String.join ((microLines day.totals day.goals).map renderNutrientLine)

/-- Tool `get_daily_macros` with its failure boundary. -/
def get_daily_macros (today : Date) (getClient : Except String Client)
    (fetch : Nat → Except String Day) (dateArg : Option String) : ToolResult :=
  match (do
    let target ← parse_date today dateArg
    let _ ← getClient
    let day ← fetch (dateOrd target)
    Except.ok (render_daily_macros target day) : Except String String) with
  | .ok s => text_response s
  | .error e => text_response ("Error retrieving macros: " ++ e)

/-- The progress footer of `get_water_intake`: rendered only when the
water amount is positive; the percentage divides the ounce amount by the
constant 64. -/
def waterProgressSection (water_ml : ℚ) : String :=
  if water_ml > 0 then
    "*Progress: " ++ fmt0 (water_ml / 29.5735 / 64 * 100) ++ "% of recommended amount*\n"
  else ""

/-- The markdown body of `get_water_intake`. -/
def render_water_intake (target : Date) (water_ml : ℚ) : String :=
  let water_oz := water_ml / 29.5735
  let water_cups := water_ml / 236.588
  "# Water Intake for " ++ strftimeBdY target ++ "\n\n" ++
  (if water_ml > 0 then
    "**Amount**: " ++ fmt0 water_oz ++ " oz (" ++ fmt1 water_cups ++ " cups / " ++
    fmt0 water_ml ++ " ml)\n"
   else "No water intake logged for this day.\n") ++
  "\n*Recommended daily intake: 64 oz (8 cups / 2000 ml)*\n" ++
  waterProgressSection water_ml

/-- Tool `get_water_intake` with its failure boundary. -/
def get_water_intake (today : Date) (getClient : Except String Client)
    (fetch : Nat → Except String Day) (dateArg : Option String) : ToolResult :=
  match (do
    let target ← parse_date today dateArg
    let _ ← getClient
    let day ← fetch (dateOrd target)
    Except.ok (render_water_intake target day.water) : Except String String) with
  | .ok s => text_response s
  | .error e => text_response ("Error retrieving water intake: " ++ e)

/-- One element of the `daily_data` list collected by
`get_date_range_summary`. -/
structure DaySnapshot where
  date : Date
  calories : ℚ
  carbs : ℚ
  fat : ℚ
  protein : ℚ
  water_ml : ℚ
  complete : Bool
  num_meals : Nat
  num_exercises : Nat
  deriving DecidableEq

/-- The per-day snapshot taken inside the collection loop of
`get_date_range_summary`. -/
def snapshot (day : Day) : DaySnapshot :=
  { date := day.date,
    calories := lookupD day.totals "calories" 0,
    carbs := lookupD day.totals "carbohydrates" 0,
    fat := lookupD day.totals "fat" 0,
    protein := lookupD day.totals "protein" 0,
    water_ml := day.water,
    complete := day.complete,
    num_meals := day.meals.length,
    num_exercises := day.exercises.length }

/-- Average calories over the collected snapshots (`avg_calories`). -/
def avg_calories (daily : List DaySnapshot) : ℚ :=
  (daily.map (·.calories)).sum / daily.length

/-- Average carbohydrates over the collected snapshots (`avg_carbs`). -/
def avg_carbs (daily : List DaySnapshot) : ℚ :=
  (daily.map (·.carbs)).sum / daily.length

/-- Average fat over the collected snapshots (`avg_fat`). -/
def avg_fat (daily : List DaySnapshot) : ℚ :=
  (daily.map (·.fat)).sum / daily.length

/-- Average protein over the collected snapshots (`avg_protein`). -/
def avg_protein (daily : List DaySnapshot) : ℚ :=
  (daily.map (·.protein)).sum / daily.length

/-- Average water in milliliters over the collected snapshots
(`avg_water_ml`). -/
def avg_water_ml (daily : List DaySnapshot) : ℚ :=
  (daily.map (·.water_ml)).sum / daily.length

/-- Number of collected days marked complete (`complete_days`). -/
def complete_days (daily : List DaySnapshot) : Nat :=
  (daily.filter (·.complete)).length

/-- Number of collected days with a nonzero exercise-category count
(`days_with_exercise`). -/
def days_with_exercise (daily : List DaySnapshot) : Nat :=
  (daily.filter (fun d => d.num_exercises > 0)).length

/-- One line of the per-day breakdown section of
`get_date_range_summary`, with its optional bracketed status markers. -/
def renderBreakdownLine (s : DaySnapshot) : String :=
  let water_oz := s.water_ml / 29.5735
  let status : List String :=
    (if s.complete then ["✓"] else []) ++
    (if s.num_exercises > 0 then [toString s.num_exercises ++ " exercises"] else [])
  "- **" ++ strftimeIso s.date ++ "**: " ++
  fmt0 s.calories ++ " kcal, " ++
  fmt0 s.carbs ++ "C/" ++ fmt0 s.fat ++ "F/" ++ fmt0 s.protein ++ "P, " ++
  fmt0 water_oz ++ " oz water" ++
  (if status.isEmpty then "" else " [" ++ String.intercalate ", " status ++ "]") ++
  "\n"

/-- The markdown body of `get_date_range_summary` once at least one day
yielded data: header with the yielded-day count, averages, tracking
stats whose two percentages are divided by the yielded-day count, and
the per-day breakdown. -/
def renderRangeSummary (start e : Date) (daily : List DaySnapshot) : String :=
  let num_days := daily.length
  "# Date Range Summary\n**" ++ strftimeBdY start ++ "** to **" ++ strftimeBdY e ++
  "**\n(" ++ toString num_days ++ " days)\n\n" ++
  "## Daily Averages\n- **Calories**: " ++ fmt0 (avg_calories daily) ++
  " kcal/day\n- **Carbohydrates**: " ++ fmt0 (avg_carbs daily) ++
  "g/day\n- **Fat**: " ++ fmt0 (avg_fat daily) ++
  "g/day\n- **Protein**: " ++ fmt0 (avg_protein daily) ++
  "g/day\n- **Water**: " ++ fmt0 (avg_water_ml daily / 29.5735) ++ " oz/day (" ++
  fmt0 (avg_water_ml daily) ++ " ml/day)\n\n" ++
  "## Tracking Stats\n- **Days Completed**: " ++ toString (complete_days daily) ++ "/" ++
  toString num_days ++ " (" ++ fmt0 ((complete_days daily : ℚ) / num_days * 100) ++
  "%)\n- **Days with Exercise**: " ++ toString (days_with_exercise daily) ++ "/" ++
  toString num_days ++ " (" ++ fmt0 ((days_with_exercise daily : ℚ) / num_days * 100) ++
  "%)\n\n## Daily Breakdown\n" ++
  String.join (daily.map renderBreakdownLine)

/-- Tool `get_date_range_summary`: parse both bounds, validate the order
before constructing the client or fetching anything, collect the
snapshots through `get_date_range` (which skips failing days), return
the explanatory message when nothing was collected, otherwise the full
summary; any raised error becomes the uniform text response. -/
def get_date_range_summary (today : Date) (getClient : Except String Client)
    (fetch : Nat → Except String Day) (start_date end_date : String) : ToolResult :=
  match (do
    let start ← parse_date today (some start_date)
    let e ← parse_date today (some end_date)
    if dateOrd start > dateOrd e then
      Except.error "Start date must be before or equal to end date"
    else do
      let _ ← getClient
      let daily := (get_date_range fetch (dateOrd start) (dateOrd e)).map snapshot
      if daily.isEmpty then
        Except.ok "No data available for the specified date range."
      else
        Except.ok (renderRangeSummary start e daily) : Except String String) with
  | .ok s => text_response s
  | .error e => text_response ("Error retrieving date range summary: " ++ e)

/-- The single text block carried by a tool result. -/
def toolText (r : ToolResult) : String := (r.content.headD ⟨""⟩).text

/-- Display name carried by a rendered macros line. -/
def lineDisplay : NutrientLine → String
  | .withGoal display _ _ _ => display
  | .bare display _ _ => display
  | .fatSub label _ => label

/-- Numeric value carried by a rendered macros line. -/
def lineValue : NutrientLine → ℚ
  | .withGoal _ value _ _ => value
  | .bare _ value _ => value
  | .fatSub _ value => value

/-- Division-safety predicate for one macros line: the only line kind
whose rendering divides (by its goal) must carry a nonzero goal. -/
def lineDivisorSafe : NutrientLine → Prop
  | .withGoal _ _ goal _ => goal ≠ 0
  | .bare _ _ _ => True
  | .fatSub _ _ => True

/-- Calories-burned value of one exercise entry as read by the summary
loop (`nutrition.get('calories burned', 0)`). -/
def entryCalB (e : Entry) : ℚ := lookupD e.nutrition_information "calories burned" 0

/-- Minutes value of one exercise entry with absent treated as zero
(the net contribution of `if minutes: total += minutes`). -/
def entryMinutes (e : Entry) : ℚ := lookupD e.nutrition_information "minutes" 0

/-- Sample current date used to instantiate `today` in concrete runs. -/
def today0 : Date := ⟨2024, 5, 20⟩

/-- A constructed client value for concrete runs. -/
def client0 : Client := ⟨.browser⟩

/-- Concrete day of the end-to-end daily-summary scenario: calories 1800
against goal 2000, 1500 ml water, two meals, no exercises. -/
def dayDS : Day :=
  { date := ⟨2024, 5, 20⟩,
    totals := [("calories", 1800), ("carbohydrates", 200), ("fat", 60), ("protein", 90)],
    goals := [("calories", 2000), ("carbohydrates", 250), ("fat", 70), ("protein", 100)],
    water := 1500,
    meals := [⟨"Breakfast", [("calories", 900)], []⟩, ⟨"Lunch", [("calories", 900)], []⟩],
    exercises := [],
    complete := false }

/-- Concrete day whose consumption exceeds its goal (2200 against 2000),
exhibiting a negative remaining-calories value. -/
def dayOver : Day :=
  { date := ⟨2024, 5, 20⟩,
    totals := [("calories", 2200)],
    goals := [("calories", 2000)],
    water := 0, meals := [], exercises := [], complete := false }

/-- First day of the range scenario: 2024-01-01, 2000 kcal, complete,
one exercise category. -/
def rangeDayA : Day :=
  { date := ⟨2024, 1, 1⟩, totals := [("calories", 2000)], goals := [],
    water := 1000, meals := [], exercises := [⟨"Cardiovascular", []⟩], complete := true }

/-- Middle day of the all-success range scenario: 2024-01-02,
2200 kcal, complete, no exercise. -/
def rangeDayB : Day :=
  { date := ⟨2024, 1, 2⟩, totals := [("calories", 2200)], goals := [],
    water := 1000, meals := [], exercises := [], complete := true }

/-- Last day of the range scenario: 2024-01-03, 1800 kcal, incomplete,
no exercise. -/
def rangeDayC : Day :=
  { date := ⟨2024, 1, 3⟩, totals := [("calories", 1800)], goals := [],
    water := 1000, meals := [], exercises := [], complete := false }

/-- Fetch oracle whose 2024-01-02 fetch raises while the neighbouring
days succeed. -/
def fetchSkip : Nat → Except String Day := fun n =>
  if n = dateOrd ⟨2024, 1, 1⟩ then .ok rangeDayA
  else if n = dateOrd ⟨2024, 1, 2⟩ then .error "network error"
  else if n = dateOrd ⟨2024, 1, 3⟩ then .ok rangeDayC
  else .error "network error"

/-- Fetch oracle for which all three days of the range scenario
succeed. -/
def fetchAll3 : Nat → Except String Day := fun n =>
  if n = dateOrd ⟨2024, 1, 1⟩ then .ok rangeDayA
  else if n = dateOrd ⟨2024, 1, 2⟩ then .ok rangeDayB
  else if n = dateOrd ⟨2024, 1, 3⟩ then .ok rangeDayC
  else .error "network error"

/-- Fetch oracle that always raises. -/
def fetchFailAll : Nat → Except String Day := fun _ => .error "network error"

/-- Parse oracle representing `json.loads` succeeding on the serialized
mapping of the cookie-loader scenario. -/
def parseCookieOk : String → Except String Json := fun _ =>
  .ok (.obj [("a", .obj [("value", .str "x")])])

/-- The cookie the loader reconstructs from that mapping: every
attribute other than the name and value comes from a default. -/
def cookieA : Cookie :=
  { name := "a", value := .str "x", domain := .str ".myfitnesspal.com",
    domain_initial_dot := false, path := .str "/", secure := .bool false }

theorem get_date_range_loop (fetch : Nat → Except String Day) (start e : Nat) :
    get_date_range fetch start e =
      if start ≤ e then
        (match fetch start with
         | .ok d => [d]
         | .error _ => []) ++ get_date_range fetch (start + 1) e
      else [] := by
  unfold get_date_range
  by_cases h : start ≤ e
  · have h1 : e + 1 - start = (e + 1 - (start + 1)) + 1 := by omega
    rw [if_pos h, h1, get_date_range_go]
  · have h1 : e + 1 - start = 0 := by omega
    rw [if_neg h, h1, get_date_range_go]

theorem get_date_range_eq (fetch : Nat → Except String Day) (s e : Nat) :
    get_date_range fetch s e
      = (List.range' s (e + 1 - s)).filterMap (fun n => (fetch n).toOption) := by
  unfold get_date_range
  generalize e + 1 - s = k
  induction k generalizing s with
  | zero => simp [get_date_range_go]
  | succ n ih =>
      rw [get_date_range_go, List.range'_succ, List.filterMap_cons, ih]
      cases hf : fetch s <;> simp [hf, Except.toOption]

theorem filterMap_map_pairwise_lt {g : Nat → Option Day} {f : Day → Nat}
    (hg : ∀ n d, g n = some d → f d = n) :
    ∀ l : List Nat, l.Pairwise (· < ·) → ((l.filterMap g).map f).Pairwise (· < ·) := by
  intro l
  induction l with
  | nil => intro _; simp
  | cons a t ih =>
      intro hp
      rcases List.pairwise_cons.mp hp with ⟨ha, ht⟩
      cases hga : g a with
      | none => simpa [List.filterMap_cons, hga] using ih ht
      | some d =>
          rw [List.filterMap_cons, hga, List.map_cons]
          refine List.pairwise_cons.mpr ⟨?_, ih ht⟩
          intro b hb
          rcases List.mem_map.mp hb with ⟨d2, hd2, rfl⟩
          rcases List.mem_filterMap.mp hd2 with ⟨n2, hn2, hg2⟩
          rw [hg a d hga, hg n2 d2 hg2]
          exact ha n2 hn2

theorem mem_ite_singleton {α : Type} (c : Prop) [Decidable c] (a b : α) :
    (a ∈ (if c then [b] else [])) ↔ c ∧ a = b := by
  by_cases h : c <;> simp [h]

theorem lineDisplay_format (t g : List (String × ℚ)) (n dn u : String) :
    lineDisplay (format_nutrient t g n dn u) = dn := by
  unfold format_nutrient
  by_cases h : lookupD g n 0 > 0 <;> simp [h, lineDisplay]

theorem fatSub_ne_format (t g : List (String × ℚ)) (n dn u l : String) (v : ℚ) :
    NutrientLine.fatSub l v ≠ format_nutrient t g n dn u := by
  unfold format_nutrient
  by_cases h : lookupD g n 0 > 0 <;> simp [h]

theorem minutes_step (acc : ℚ) (e : Entry) :
    (match e.nutrition_information.lookup "minutes" with
     | some v => if v ≠ 0 then acc + v else acc
     | none => acc) = acc + entryMinutes e := by
  unfold entryMinutes lookupD
  cases hm : e.nutrition_information.lookup "minutes" with
  | none => simp
  | some v => by_cases hv : v = 0 <;> simp [hv]

theorem entries_foldl_stats (entries : List Entry) (acc : ℚ × ℚ × Nat) :
    entries.foldl (fun acc2 entry =>
      let nutrition := entry.nutrition_information
      (acc2.1 + lookupD nutrition "calories burned" 0,
       (match nutrition.lookup "minutes" with
        | some v => if v ≠ 0 then acc2.2.1 + v else acc2.2.1
        | none => acc2.2.1),
       acc2.2.2 + 1)) acc
    = (acc.1 + (entries.map entryCalB).sum,
       acc.2.1 + (entries.map entryMinutes).sum,
       acc.2.2 + entries.length) := by
  induction entries generalizing acc with
  | nil => simp
  | cons e t ih =>
      rw [List.foldl_cons, ih]
      simp only [minutes_step, List.map_cons, List.sum_cons, List.length_cons]
      rw [Prod.ext_iff, Prod.ext_iff]
      refine ⟨?_, ?_, ?_⟩
      · simp [entryCalB]
        ring
      · simp
        ring
      · simp
        omega

theorem summaryStats_eq (exercises : List Exercise) :
    summaryExerciseStats exercises
      = (((exercises.flatMap (·.entries)).map entryCalB).sum,
         ((exercises.flatMap (·.entries)).map entryMinutes).sum,
         (exercises.flatMap (·.entries)).length) := by
  unfold summaryExerciseStats
  have main : ∀ (exs : List Exercise) (acc : ℚ × ℚ × Nat),
      exs.foldl (fun acc ex =>
        ex.entries.foldl (fun acc2 entry =>
          let nutrition := entry.nutrition_information
          (acc2.1 + lookupD nutrition "calories burned" 0,
           (match nutrition.lookup "minutes" with
            | some v => if v ≠ 0 then acc2.2.1 + v else acc2.2.1
            | none => acc2.2.1),
           acc2.2.2 + 1)) acc) acc
      = (acc.1 + ((exs.flatMap (·.entries)).map entryCalB).sum,
         acc.2.1 + ((exs.flatMap (·.entries)).map entryMinutes).sum,
         acc.2.2 + (exs.flatMap (·.entries)).length) := by
    intro exs
    induction exs with
    | nil => intro acc; simp
    | cons ex t ih =>
        intro acc
        rw [List.foldl_cons, entries_foldl_stats, ih]
        rw [Prod.ext_iff, Prod.ext_iff]
        refine ⟨?_, ?_, ?_⟩
        · simp
          ring
        · simp
          ring
        · simp
          omega
  rw [main]
  simp

theorem digitVal_some_iff {c : Char} {v : Nat} :
    digitVal c = some v ↔ (48 ≤ c.toNat ∧ c.toNat ≤ 57) ∧ v = c.toNat - 48 := by
  unfold digitVal
  split
  · rename_i h
    simp [h]
    omega
  · rename_i h
    simp [h]

theorem parseMonthSplit_inv {l : List Char} {m : Nat} {r : List Char}
    (h : parseMonthSplit l = some (m, r)) :
    (∃ ms, l = ms ++ '-' :: r ∧ (ms.length = 1 ∨ ms.length = 2) ∧
      allDigits ms = true ∧ digitsToNat ms = m) ∧ 1 ≤ m ∧ m ≤ 12 := by
  unfold parseMonthSplit at h
  repeat' split at h
  all_goals simp only [Option.some.injEq, Prod.mk.injEq, reduceCtorEq] at h
  · rename_i rest0 m1 rest1 r0 rest3 hdash x v heq hv
    obtain ⟨hm, hr⟩ := h
    obtain ⟨⟨hb1, hb2⟩, hv48⟩ := digitVal_some_iff.mp heq
    subst hm
    subst hr
    refine ⟨⟨[m1], by simp [hdash], Or.inl rfl, by simp [allDigits, heq], ?_⟩, by omega, by omega⟩
    simp [digitsToNat]
    omega
  · rename_i rest0 m1 rest1 r0 hnd rest2 r1 rest3 hdash x1 x2 v1 v2 heq1 heq2 hcond
    obtain ⟨hm, hr⟩ := h
    obtain ⟨⟨ha1, ha2⟩, he1⟩ := digitVal_some_iff.mp heq1
    obtain ⟨⟨hb1, hb2⟩, he2⟩ := digitVal_some_iff.mp heq2
    subst hm
    subst hr
    refine ⟨⟨[m1, r0], by simp [hdash], Or.inr rfl, by simp [allDigits, heq1, heq2], ?_⟩,
      by omega, by omega⟩
    simp [digitsToNat]
    omega

theorem parseDayEnd_inv {l : List Char} {d : Nat} (h : parseDayEnd l = some d) :
    (l.length = 1 ∨ l.length = 2) ∧ allDigits l = true ∧ digitsToNat l = d ∧
      1 ≤ d ∧ d ≤ 31 := by
  unfold parseDayEnd at h
  repeat' split at h
  all_goals simp only [Option.some.injEq, reduceCtorEq] at h
  · rename_i d1 x v heq hv
    obtain ⟨⟨hb1, hb2⟩, hv48⟩ := digitVal_some_iff.mp heq
    subst h
    refine ⟨Or.inl rfl, by simp [allDigits, heq], ?_, by omega, by omega⟩
    simp [digitsToNat]
    omega
  · rename_i d1 d2 x1 x2 v1 v2 heq1 heq2 hcond
    obtain ⟨⟨ha1, ha2⟩, he1⟩ := digitVal_some_iff.mp heq1
    obtain ⟨⟨hb1, hb2⟩, he2⟩ := digitVal_some_iff.mp heq2
    subst h
    refine ⟨Or.inr rfl, by simp [allDigits, heq1, heq2], ?_, by omega, by omega⟩
    simp [digitsToNat]
    omega

theorem parseYmdPattern_inv {cs : List Char} {y m d : Nat}
    (h : parseYmdPattern cs = some (y, m, d)) :
    ∃ ys ms ds : List Char,
      cs = ys ++ '-' :: ms ++ '-' :: ds ∧
      ys.length = 4 ∧ allDigits ys = true ∧
      (ms.length = 1 ∨ ms.length = 2) ∧ allDigits ms = true ∧
      (ds.length = 1 ∨ ds.length = 2) ∧ allDigits ds = true ∧
      y = digitsToNat ys ∧ m = digitsToNat ms ∧ d = digitsToNat ds ∧
      1 ≤ m ∧ m ≤ 12 ∧ 1 ≤ d ∧ d ≤ 31 := by
  unfold parseYmdPattern at h
  repeat' split at h
  all_goals simp only [Option.some.injEq, Prod.mk.injEq, reduceCtorEq] at h
  rename_i rest0 c1 c2 c3 c4 c5 rest hdash xa xb xc xd a b c dd heqa heqb heqc heqd xm mm
    rest2 hm xday dday hday
  obtain ⟨hy, hmm, hdd⟩ := h
  obtain ⟨⟨ha1, ha2⟩, hva⟩ := digitVal_some_iff.mp heqa
  obtain ⟨⟨hb1, hb2⟩, hvb⟩ := digitVal_some_iff.mp heqb
  obtain ⟨⟨hc1, hc2⟩, hvc⟩ := digitVal_some_iff.mp heqc
  obtain ⟨⟨hd1, hd2⟩, hvd⟩ := digitVal_some_iff.mp heqd
  obtain ⟨⟨ms, hmsplit, hmlen, hmdig, hmval⟩, hm1, hm12⟩ := parseMonthSplit_inv hm
  obtain ⟨hdlen, hddig, hdval, hd1b, hd31⟩ := parseDayEnd_inv hday
  subst hmm
  subst hdd
  refine ⟨[c1, c2, c3, c4], ms, rest2, ?_, rfl, by simp [allDigits, heqa, heqb, heqc, heqd],
    hmlen, hmdig, hdlen, hddig, ?_, by omega, by omega, hm1, hm12, hd1b, hd31⟩
  · simp [hdash, hmsplit]
  · simp [digitsToNat]
    omega

theorem char_dash_toNat : ('-').toNat = 45 := rfl

theorem digit_ne_dash {c : Char} {v : Nat} (h : digitVal c = some v) : ¬ c = '-' := by
  obtain ⟨⟨h1, _⟩, _⟩ := digitVal_some_iff.mp h
  intro he
  rw [he, char_dash_toNat] at h1
  omega

theorem allDigits_one {m1 : Char} (h : allDigits [m1] = true) : ∃ v, digitVal m1 = some v := by
  simp [allDigits] at h
  exact Option.isSome_iff_exists.mp h

theorem allDigits_two {m1 m2 : Char} (h : allDigits [m1, m2] = true) :
    (∃ v, digitVal m1 = some v) ∧ ∃ v, digitVal m2 = some v := by
  simp [allDigits] at h
  exact ⟨Option.isSome_iff_exists.mp h.1, Option.isSome_iff_exists.mp h.2⟩

theorem parseMonthSplit_complete (ms r : List Char)
    (hlen : ms.length = 1 ∨ ms.length = 2) (hdig : allDigits ms = true)
    (h1 : 1 ≤ digitsToNat ms) (h2 : digitsToNat ms ≤ 12) :
    parseMonthSplit (ms ++ '-' :: r) = some (digitsToNat ms, r) := by
  rcases hlen with h | h
  · match ms, h with
    | [m1], _ =>
      obtain ⟨v, hv⟩ := allDigits_one hdig
      obtain ⟨⟨hb1, hb2⟩, hv48⟩ := digitVal_some_iff.mp hv
      have hd : digitsToNat [m1] = v := by simp [digitsToNat]; omega
      rw [hd] at h1 h2 ⊢
      simp only [List.cons_append, List.nil_append, parseMonthSplit]
      rw [if_pos trivial]
      simp only [hv]
      rw [if_pos h1]
  · match ms, h with
    | [m1, m2], _ =>
      obtain ⟨⟨v1, hv1⟩, v2, hv2⟩ := allDigits_two hdig
      obtain ⟨⟨ha1, ha2⟩, he1⟩ := digitVal_some_iff.mp hv1
      obtain ⟨⟨hb1, hb2⟩, he2⟩ := digitVal_some_iff.mp hv2
      have hd : digitsToNat [m1, m2] = 10 * v1 + v2 := by simp [digitsToNat]; omega
      rw [hd] at h1 h2 ⊢
      simp only [List.cons_append, List.nil_append, parseMonthSplit]
      rw [if_neg (digit_ne_dash hv2), if_pos trivial]
      simp only [hv1, hv2]
      rw [if_pos (show (v1 = 1 ∧ v2 ≤ 2) ∨ (v1 = 0 ∧ 1 ≤ v2) by omega)]

theorem parseDayEnd_complete (ds : List Char)
    (hlen : ds.length = 1 ∨ ds.length = 2) (hdig : allDigits ds = true)
    (h1 : 1 ≤ digitsToNat ds) (h2 : digitsToNat ds ≤ 31) :
    parseDayEnd ds = some (digitsToNat ds) := by
  rcases hlen with h | h
  · match ds, h with
    | [d1], _ =>
      obtain ⟨v, hv⟩ := allDigits_one hdig
      obtain ⟨⟨hb1, hb2⟩, hv48⟩ := digitVal_some_iff.mp hv
      have hd : digitsToNat [d1] = v := by simp [digitsToNat]; omega
      rw [hd] at h1 h2 ⊢
      simp only [parseDayEnd]
      simp only [hv]
      rw [if_pos h1]
  · match ds, h with
    | [d1, d2], _ =>
      obtain ⟨⟨v1, hv1⟩, v2, hv2⟩ := allDigits_two hdig
      obtain ⟨⟨ha1, ha2⟩, he1⟩ := digitVal_some_iff.mp hv1
      obtain ⟨⟨hb1, hb2⟩, he2⟩ := digitVal_some_iff.mp hv2
      have hd : digitsToNat [d1, d2] = 10 * v1 + v2 := by simp [digitsToNat]; omega
      rw [hd] at h1 h2 ⊢
      simp only [parseDayEnd]
      simp only [hv1, hv2]
      rw [if_pos (show (v1 = 3 ∧ v2 ≤ 1) ∨ v1 = 1 ∨ v1 = 2 ∨ (v1 = 0 ∧ 1 ≤ v2) by omega)]

theorem parseYmdPattern_complete (ys ms ds : List Char)
    (hy4 : ys.length = 4) (hydig : allDigits ys = true)
    (hmlen : ms.length = 1 ∨ ms.length = 2) (hmdig : allDigits ms = true)
    (hdlen : ds.length = 1 ∨ ds.length = 2) (hddig : allDigits ds = true)
    (hm1 : 1 ≤ digitsToNat ms) (hm2 : digitsToNat ms ≤ 12)
    (hd1 : 1 ≤ digitsToNat ds) (hd2 : digitsToNat ds ≤ 31) :
    parseYmdPattern (ys ++ '-' :: ms ++ '-' :: ds)
      = some (digitsToNat ys, digitsToNat ms, digitsToNat ds) := by
  match ys, hy4 with
  | [c1, c2, c3, c4], _ =>
    have hall : allDigits [c1] = true ∧ allDigits [c2] = true ∧ allDigits [c3] = true ∧
        allDigits [c4] = true := by
      simp [allDigits] at hydig ⊢
      tauto
    obtain ⟨va, hva⟩ := allDigits_one hall.1
    obtain ⟨vb, hvb⟩ := allDigits_one hall.2.1
    obtain ⟨vc, hvc⟩ := allDigits_one hall.2.2.1
    obtain ⟨vd, hvd⟩ := allDigits_one hall.2.2.2
    obtain ⟨⟨_, _⟩, _⟩ := digitVal_some_iff.mp hva
    obtain ⟨⟨_, _⟩, _⟩ := digitVal_some_iff.mp hvb
    obtain ⟨⟨_, _⟩, _⟩ := digitVal_some_iff.mp hvc
    obtain ⟨⟨_, _⟩, _⟩ := digitVal_some_iff.mp hvd
    simp only [List.cons_append, List.nil_append, parseYmdPattern]
    rw [if_pos trivial]
    simp only [hva, hvb, hvc, hvd,
      parseMonthSplit_complete ms ds hmlen hmdig hm1 hm2,
      parseDayEnd_complete ds hdlen hddig hd1 hd2]
    have : ((va * 10 + vb) * 10 + vc) * 10 + vd = digitsToNat [c1, c2, c3, c4] := by
      simp [digitsToNat]
      omega
    rw [this]

theorem strptimeYmd_iff (s : String) (y m d : Nat) :
    strptimeYmd s = some (y, m, d) ↔
      strptimeShape s y m d ∧ 1 ≤ y ∧ d ≤ daysInMonth y m := by
  constructor
  · intro h
    unfold strptimeYmd at h
    cases hp : parseYmdPattern s.data with
    | none => rw [hp] at h; simp at h
    | some t =>
        obtain ⟨y', m', d'⟩ := t
        simp only [hp] at h
        split at h
        · rename_i hcond
          obtain ⟨hy, hm, hd⟩ : y' = y ∧ m' = m ∧ d' = d := by simpa using h
          subst hy
          subst hm
          subst hd
          obtain ⟨ys, ms, ds, hsplit, h4, hyd, hml, hmd, hdl, hdd, hy, hm, hd,
            hm1, hm12, hd1, hd31⟩ := parseYmdPattern_inv hp
          exact ⟨⟨ys, ms, ds, hsplit, h4, hyd, hml, hmd, hdl, hdd, hy, hm, hd,
            hm1, hm12, hd1, hd31⟩, hcond.1, hcond.2⟩
        · simp at h
  · rintro ⟨⟨ys, ms, ds, hsplit, h4, hyd, hml, hmd, hdl, hdd, hy, hm, hd,
      hm1, hm12, hd1, hd31⟩, hy1, hdm⟩
    unfold strptimeYmd
    rw [hsplit, parseYmdPattern_complete ys ms ds h4 hyd hml hmd hdl hdd
      (by omega) (by omega) (by omega) (by omega)]
    subst hy
    subst hm
    subst hd
    simp [hy1, hdm]

/-- C3 counterexample: the parser accepts the single-digit-month string
"2024-3-15", which does not match the exact two-digit pattern
`YYYY-MM-DD` the claim demands, and it rejects "2024-02-30", which does
match that pattern; so acceptance is not equivalent to matching the
claimed shape in either direction. -/
theorem c3_date_parser_counterexample :
    parse_date today0 (some "2024-3-15") = .ok ⟨2024, 3, 15⟩ ∧
    specPatternYMD "2024-3-15" = false ∧
    specPatternYMD "2024-02-30" = true ∧
    parse_date today0 (some "2024-02-30")
      = .error "Invalid date format: 2024-02-30. Use YYYY-MM-DD" := by
  refine ⟨rfl, by decide, by decide, rfl⟩

/-- C3 amended: absent or empty input yields today; a non-empty string
is accepted exactly when it splits as year-month-day with four year
digits, one or two month digits denoting 1..12, one or two day digits
denoting 1..31, the year is at least 1 and the day fits the month; every
other non-empty string yields the invalid-format error carrying the
offending string.  In particular "2024-03-15" and the single-digit form
"2024-3-15" are accepted while "03/15/2024" and the well-shaped but
non-calendar "2024-02-30" are rejected. -/
theorem c3_date_parser_amended :
    (∀ today, parse_date today none = .ok today) ∧
    (∀ today, parse_date today (some "") = .ok today) ∧
    (∀ today s y m d, s ≠ "" →
      (parse_date today (some s) = .ok ⟨y, m, d⟩ ↔
        strptimeShape s y m d ∧ 1 ≤ y ∧ d ≤ daysInMonth y m)) ∧
    (∀ today s r, parse_date today (some s) = .error r →
      r = "Invalid date format: " ++ s ++ ". Use YYYY-MM-DD") ∧
    (∀ today s, s ≠ "" → strptimeYmd s = none →
      parse_date today (some s)
        = .error ("Invalid date format: " ++ s ++ ". Use YYYY-MM-DD")) ∧
    parse_date today0 (some "2024-03-15") = .ok ⟨2024, 3, 15⟩ ∧
    parse_date today0 (some "03/15/2024")
      = .error "Invalid date format: 03/15/2024. Use YYYY-MM-DD" := by
  refine ⟨fun today => rfl, fun today => rfl, ?_, ?_, ?_, rfl, rfl⟩
  · intro today s y m d hs
    simp only [parse_date]
    rw [if_neg hs]
    constructor
    · intro h
      cases hp : strptimeYmd s with
      | none => rw [hp] at h; simp at h
      | some t =>
          obtain ⟨y', m', d'⟩ := t
          simp only [hp, Except.ok.injEq] at h
          have hy : y' = y ∧ m' = m ∧ d' = d := by
            refine ⟨congrArg Date.y h, congrArg Date.m h, congrArg Date.d h⟩
          obtain ⟨h1, h2, h3⟩ := hy
          subst h1
          subst h2
          subst h3
          exact (strptimeYmd_iff s _ _ _).mp hp
    · intro h
      rw [(strptimeYmd_iff s y m d).mpr h]
  · intro today s r h
    simp only [parse_date] at h
    cases s1 : decide (s = "") with
    | true =>
        have : s = "" := of_decide_eq_true s1
        rw [if_pos this] at h
        cases h
    | false =>
        have hs : ¬ s = "" := of_decide_eq_false s1
        rw [if_neg hs] at h
        cases hp : strptimeYmd s with
        | none => rw [hp] at h; cases h; rfl
        | some t =>
            obtain ⟨y', m', d'⟩ := t
            simp only [hp] at h
            cases h
  · intro today s hs hn
    simp only [parse_date]
    rw [if_neg hs, hn]

/-- C3 amended witness: the characterization applied to the concrete
accepted string "2024-03-15". -/
theorem c3_date_parser_amended_witness :
    parse_date today0 (some "2024-03-15") = .ok ⟨2024, 3, 15⟩ :=
  (c3_date_parser_amended.2.2.1 today0 "2024-03-15" 2024 3 15 (by decide)).mpr
    (by
      refine ⟨⟨['2','0','2','4'], ['0','3'], ['1','5'], ?_, ?_, ?_, ?_, ?_, ?_, ?_,
        ?_, ?_, ?_, ?_, ?_, ?_, ?_⟩, ?_, ?_⟩ <;> decide)

/-- C1: every tool is wrapped in the failure boundary: an error raised
in date parsing, client construction or day fetching becomes the plain
text response "Error retrieving <subject>: <message>" of that tool and
is never re-raised (each tool is a total function into a text response);
and a range call whose parsed start date is after its parsed end date
returns the validation error text for every fetch oracle and every
client oracle, so the validation failure occurs before any day is
fetched and before the client is even constructed. -/
theorem c1_failure_boundary :
    (∀ today gc fetch arg e, parse_date today arg = .error e →
      get_daily_summary today gc fetch arg
        = text_response ("Error retrieving daily summary: " ++ e)) ∧
    (∀ today gc fetch arg e, parse_date today arg = .error e →
      get_daily_meals today gc fetch arg
        = text_response ("Error retrieving meals: " ++ e)) ∧
    (∀ today gc fetch arg e, parse_date today arg = .error e →
      get_daily_exercise today gc fetch arg
        = text_response ("Error retrieving exercise: " ++ e)) ∧
    (∀ today gc fetch arg e, parse_date today arg = .error e →
      get_daily_macros today gc fetch arg
        = text_response ("Error retrieving macros: " ++ e)) ∧
    (∀ today gc fetch arg e, parse_date today arg = .error e →
      get_water_intake today gc fetch arg
        = text_response ("Error retrieving water intake: " ++ e)) ∧
    (∀ today gc fetch sd ed e, parse_date today (some sd) = .error e →
      get_date_range_summary today gc fetch sd ed
        = text_response ("Error retrieving date range summary: " ++ e)) ∧
    (∀ today gc fetch sd ed s e, parse_date today (some sd) = .ok s →
      parse_date today (some ed) = .error e →
      get_date_range_summary today gc fetch sd ed
        = text_response ("Error retrieving date range summary: " ++ e)) ∧
    (∀ today fetch e, get_daily_summary today (.error e) fetch none
        = text_response ("Error retrieving daily summary: " ++ e)) ∧
    (∀ today fetch e, get_daily_meals today (.error e) fetch none
        = text_response ("Error retrieving meals: " ++ e)) ∧
    (∀ today fetch e, get_daily_exercise today (.error e) fetch none
        = text_response ("Error retrieving exercise: " ++ e)) ∧
    (∀ today fetch e, get_daily_macros today (.error e) fetch none
        = text_response ("Error retrieving macros: " ++ e)) ∧
    (∀ today fetch e, get_water_intake today (.error e) fetch none
        = text_response ("Error retrieving water intake: " ++ e)) ∧
    (∀ today c fetch arg d e, parse_date today arg = .ok d →
      fetch (dateOrd d) = .error e →
      get_daily_summary today (.ok c) fetch arg
        = text_response ("Error retrieving daily summary: " ++ e)) ∧
    (∀ today c fetch arg d e, parse_date today arg = .ok d →
      fetch (dateOrd d) = .error e →
      get_daily_meals today (.ok c) fetch arg
        = text_response ("Error retrieving meals: " ++ e)) ∧
    (∀ today c fetch arg d e, parse_date today arg = .ok d →
      fetch (dateOrd d) = .error e →
      get_daily_exercise today (.ok c) fetch arg
        = text_response ("Error retrieving exercise: " ++ e)) ∧
    (∀ today c fetch arg d e, parse_date today arg = .ok d →
      fetch (dateOrd d) = .error e →
      get_daily_macros today (.ok c) fetch arg
        = text_response ("Error retrieving macros: " ++ e)) ∧
    (∀ today c fetch arg d e, parse_date today arg = .ok d →
      fetch (dateOrd d) = .error e →
      get_water_intake today (.ok c) fetch arg
        = text_response ("Error retrieving water intake: " ++ e)) ∧
    (∀ today gc fetch sd ed s t, parse_date today (some sd) = .ok s →
      parse_date today (some ed) = .ok t → dateOrd s > dateOrd t →
      get_date_range_summary today gc fetch sd ed
        = text_response
            "Error retrieving date range summary: Start date must be before or equal to end date") := by
  refine ⟨?_, ?_, ?_, ?_, ?_, ?_, ?_, ?_, ?_, ?_, ?_, ?_, ?_, ?_, ?_, ?_, ?_, ?_⟩
  · intro today gc fetch arg e h
    simp [get_daily_summary, h, Except.instMonad, Except.bind, bind]
  · intro today gc fetch arg e h
    simp [get_daily_meals, h, Except.instMonad, Except.bind, bind]
  · intro today gc fetch arg e h
    simp [get_daily_exercise, h, Except.instMonad, Except.bind, bind]
  · intro today gc fetch arg e h
    simp [get_daily_macros, h, Except.instMonad, Except.bind, bind]
  · intro today gc fetch arg e h
    simp [get_water_intake, h, Except.instMonad, Except.bind, bind]
  · intro today gc fetch sd ed e h
    simp [get_date_range_summary, h, Except.instMonad, Except.bind, bind]
  · intro today gc fetch sd ed s e h1 h2
    simp [get_date_range_summary, h1, h2, Except.instMonad, Except.bind, bind]
  · intro today fetch e
    simp [get_daily_summary, parse_date, Except.instMonad, Except.bind, bind]
  · intro today fetch e
    simp [get_daily_meals, parse_date, Except.instMonad, Except.bind, bind]
  · intro today fetch e
    simp [get_daily_exercise, parse_date, Except.instMonad, Except.bind, bind]
  · intro today fetch e
    simp [get_daily_macros, parse_date, Except.instMonad, Except.bind, bind]
  · intro today fetch e
    simp [get_water_intake, parse_date, Except.instMonad, Except.bind, bind]
  · intro today c fetch arg d e h1 h2
    simp [get_daily_summary, h1, h2, Except.instMonad, Except.bind, bind]
  · intro today c fetch arg d e h1 h2
    simp [get_daily_meals, h1, h2, Except.instMonad, Except.bind, bind]
  · intro today c fetch arg d e h1 h2
    simp [get_daily_exercise, h1, h2, Except.instMonad, Except.bind, bind]
  · intro today c fetch arg d e h1 h2
    simp [get_daily_macros, h1, h2, Except.instMonad, Except.bind, bind]
  · intro today c fetch arg d e h1 h2
    simp [get_water_intake, h1, h2, Except.instMonad, Except.bind, bind]
  · intro today gc fetch sd ed s t h1 h2 h3
    simp [get_date_range_summary, h1, h2, h3, Except.instMonad, Except.bind, bind]

/-- C1 witness: the boundary at work on a malformed date argument of the
daily-summary tool. -/
theorem c1_failure_boundary_witness :
    get_daily_summary today0 (.ok client0) fetchFailAll (some "03/15/2024")
      = text_response
          "Error retrieving daily summary: Invalid date format: 03/15/2024. Use YYYY-MM-DD" :=
  c1_failure_boundary.1 today0 (.ok client0) fetchFailAll (some "03/15/2024")
    "Invalid date format: 03/15/2024. Use YYYY-MM-DD" rfl

/-- C5 counterexample: with client construction failing (no valid
credentials from either source), a call to the daily-summary tool
returns the per-tool text error response built from the construction
failure message — the failure surfaces through the per-tool error
channel, not as a startup failure, because the client is constructed
lazily inside the tool call's try block. -/
theorem c5_startup_counterexample :
    get_daily_summary today0 (.error "No valid credentials found") fetchFailAll none
      = text_response "Error retrieving daily summary: No valid credentials found" ∧
    strStarts
      (toolText (get_daily_summary today0 (.error "No valid credentials found") fetchFailAll none))
      "Error retrieving" = true := by
  constructor
  · rfl
  · decide

/-- C5 amended: when neither the environment cookie mapping nor the
browser session yields credentials, construction of the client fails
with the collaborator's error; because the server constructs the client
lazily on first use inside each tool's failure boundary, that failure
surfaces as the per-tool text error response "Error retrieving
<subject>: <message>" of whichever tool ran first, not as a startup
failure of the server process. -/
theorem c5_startup_amended :
    (∀ parse mkCookieClient browserResult,
      clientInitE parse none mkCookieClient browserResult = browserResult) ∧
    (∀ parse env mkCookieClient browserResult,
      (_load_cookies_from_env parse env).1 = none →
      clientInitE parse env mkCookieClient browserResult = browserResult) ∧
    (∀ today e fetch, get_daily_summary today (.error e) fetch none
        = text_response ("Error retrieving daily summary: " ++ e)) ∧
    (∀ today e fetch sd ed s t, parse_date today (some sd) = .ok s →
      parse_date today (some ed) = .ok t → ¬ dateOrd s > dateOrd t →
      get_date_range_summary today (.error e) fetch sd ed
        = text_response ("Error retrieving date range summary: " ++ e)) := by
  refine ⟨?_, ?_, ?_, ?_⟩
  · intro parse mk b
    rfl
  · intro parse env mk b h
    unfold clientInitE
    rw [h]
  · intro today e fetch
    simp [get_daily_summary, parse_date, Except.instMonad, Except.bind, bind]
  · intro today e fetch sd ed s t h1 h2 h3
    simp [get_date_range_summary, h1, h2, h3, Except.instMonad, Except.bind, bind]

/-- C5 amended witness: the fall-through and the per-tool surfacing at
concrete inputs. -/
theorem c5_startup_amended_witness :
    clientInitE parseCookieOk none (fun _ => .error "cookie client")
      (.error "no browser session") = .error "no browser session" ∧
    get_date_range_summary today0 (.error "No valid credentials found") fetchFailAll
        "2024-01-01" "2024-01-03"
      = text_response "Error retrieving date range summary: No valid credentials found" :=
  ⟨c5_startup_amended.1 parseCookieOk (fun _ => .error "cookie client") (.error "no browser session"),
   c5_startup_amended.2.2.2 today0 "No valid credentials found" fetchFailAll
     "2024-01-01" "2024-01-03" ⟨2024, 1, 1⟩ ⟨2024, 1, 3⟩ rfl rfl (by decide)⟩

/-- C9: from the serialized mapping with one entry "a" carrying value
"x" (delivered by the json.loads collaborator as the parse oracle), the
loader produces exactly one cookie named "a" whose domain, path and
secure flag all come from the defaults; for every present non-empty
input whose parse or whose structure fails, the loader raises nothing,
emits exactly one warning and returns nothing; every load is either a
jar with no warning or nothing with exactly one warning; and a load
that returns nothing makes construction fall through to browser-based
authentication. -/
theorem c9_cookie_loader :
    (_load_cookies_from_env parseCookieOk (some "cookie-env") = (some [cookieA], 0) ∧
     cookieA.name = "a" ∧ cookieA.value = .str "x" ∧
     cookieA.domain = .str ".myfitnesspal.com" ∧ cookieA.path = .str "/" ∧
     cookieA.secure = .bool false) ∧
    (∀ parse s e, s ≠ "" → parse s = .error e →
      _load_cookies_from_env parse (some s) = (none, 1)) ∧
    (∀ parse s, s ≠ "" →
      (∃ jar, _load_cookies_from_env parse (some s) = (some jar, 0)) ∨
      _load_cookies_from_env parse (some s) = (none, 1)) ∧
    (∀ parse env, (_load_cookies_from_env parse env).1 = none →
      clientInit parse env = .browser) := by
  refine ⟨⟨rfl, rfl, rfl, rfl, rfl, rfl⟩, ?_, ?_, ?_⟩
  · intro parse s e hs hp
    simp only [_load_cookies_from_env]
    rw [if_neg hs]
    simp [hp, Except.instMonad, Except.bind, bind]
  · intro parse s hs
    simp only [_load_cookies_from_env]
    rw [if_neg hs]
    cases hb : (do
        let j ← parse s
        let fields ← jsonAsObj j
        fields.mapM (fun nd => buildCookie nd.1 nd.2) : Except String (List Cookie)) with
    | ok jar => exact Or.inl ⟨jar, rfl⟩
    | error e => exact Or.inr rfl
  · intro parse env h
    unfold clientInit
    rw [h]

/-- C9 witness: the loader on unparseable input returns nothing with
exactly one warning. -/
theorem c9_cookie_loader_witness :
    _load_cookies_from_env (fun _ => .error "Expecting value") (some "not json")
      = (none, 1) :=
  c9_cookie_loader.2.1 (fun _ => .error "Expecting value") "not json" "Expecting value"
    (by decide) rfl

set_option maxRecDepth 4000 in
theorem fetchSkip_range :
    get_date_range fetchSkip (dateOrd ⟨2024, 1, 1⟩) (dateOrd ⟨2024, 1, 3⟩)
      = [rangeDayA, rangeDayC] := by
  with_unfolding_all decide

theorem fetchSkip_wellStamped :
    ∀ n d, fetchSkip n = .ok d → dateOrd d.date = n := by
  intro n d h
  unfold fetchSkip at h
  split_ifs at h with h1 h2 h3
  · cases h
    rw [h1]
    simp [rangeDayA]
  · cases h
    rw [h3]
    simp [rangeDayC]

set_option maxRecDepth 4000 in
/-- C2: the ranged fetch yields exactly the successfully fetched days of
the ordinals from start to end inclusive, in order (it is the
filterMap of the single-day fetch over the inclusive ordinal range, so
one Day per successful date, failures silently omitted with the
remaining dates still yielded); whenever the fetched days carry the date
they were fetched for, the yielded dates are strictly ascending; and in
the concrete scenario start 2024-01-01, end 2024-01-03 with 2024-01-02
raising, exactly the two days stamped 01-01 and 01-03 are yielded in
that order. -/
theorem c2_range_fetch :
    (∀ (fetch : Nat → Except String Day) (s e : Nat),
      get_date_range fetch s e
        = (List.range' s (e + 1 - s)).filterMap (fun n => (fetch n).toOption)) ∧
    (∀ (fetch : Nat → Except String Day) (s e : Nat),
      (∀ n d, fetch n = .ok d → dateOrd d.date = n) →
      ((get_date_range fetch s e).map (fun d => dateOrd d.date)).Pairwise (· < ·)) ∧
    (dateOrd ⟨2024, 1, 2⟩ = dateOrd ⟨2024, 1, 1⟩ + 1 ∧
     dateOrd ⟨2024, 1, 3⟩ = dateOrd ⟨2024, 1, 1⟩ + 2) ∧
    (fetchSkip (dateOrd ⟨2024, 1, 2⟩) = Except.error "network error" ∧
     get_date_range fetchSkip (dateOrd ⟨2024, 1, 1⟩) (dateOrd ⟨2024, 1, 3⟩)
       = [rangeDayA, rangeDayC] ∧
     rangeDayA.date = ⟨2024, 1, 1⟩ ∧ rangeDayC.date = ⟨2024, 1, 3⟩) := by
  refine ⟨get_date_range_eq, ?_, by decide, by with_unfolding_all rfl, fetchSkip_range, rfl, rfl⟩
  intro fetch s e hf
  rw [get_date_range_eq]
  refine filterMap_map_pairwise_lt ?_ _ (List.pairwise_lt_range' s (e + 1 - s))
  intro n d h
  cases hn : fetch n with
  | ok a =>
      rw [hn] at h
      simp [Except.toOption] at h
      subst h
      exact hf n _ hn
  | error err => rw [hn] at h; simp [Except.toOption] at h

/-- C2 witness: strict ascent of the yielded dates in the concrete
skip-middle-day scenario. -/
theorem c2_range_fetch_witness :
    ((get_date_range fetchSkip (dateOrd ⟨2024, 1, 1⟩) (dateOrd ⟨2024, 1, 3⟩)).map
      (fun d => dateOrd d.date)).Pairwise (· < ·) :=
  c2_range_fetch.2.1 fetchSkip (dateOrd ⟨2024, 1, 1⟩) (dateOrd ⟨2024, 1, 3⟩)
    fetchSkip_wellStamped

set_option maxRecDepth 8000 in
/-- C7: the daily summary's total exercise duration is the sum over all
exercise entries of the `minutes` nutrition field with absent treated as
zero, its total calories burned is the sum of the `calories burned`
field, and its activity count is the number of entries; the rendered
remaining calories are goal minus consumed and may go negative (the
over-consuming day renders "-200"); and for the concrete day with
calories 1800, goal 2000, water 1500 ml, two meals and no exercises the
rendered summary contains the remaining-calories, water and meal-count
fragments the specification displays. -/
theorem c7_daily_summary :
    (∀ exercises : List Exercise,
      (summaryExerciseStats exercises).2.1
        = ((exercises.flatMap (·.entries)).map
            (fun e => lookupD e.nutrition_information "minutes" 0)).sum) ∧
    (∀ exercises : List Exercise,
      (summaryExerciseStats exercises).1
        = ((exercises.flatMap (·.entries)).map
            (fun e => lookupD e.nutrition_information "calories burned" 0)).sum) ∧
    (∀ exercises : List Exercise,
      (summaryExerciseStats exercises).2.2 = (exercises.flatMap (·.entries)).length) ∧
    strContains (render_daily_summary today0 dayDS) "Remaining**: 200 kcal" = true ∧
    strContains (render_daily_summary today0 dayDS) "51 oz (6.3 cups, 1500 ml)" = true ∧
    strContains (render_daily_summary today0 dayDS) "Meals Logged**: 2" = true ∧
    strContains (render_daily_summary today0 dayOver) "Remaining**: -200 kcal" = true := by
  refine ⟨?_, ?_, ?_, ?_, ?_, ?_, ?_⟩
  · intro exercises
    rw [summaryStats_eq]
    rfl
  · intro exercises
    rw [summaryStats_eq]
    rfl
  · intro exercises
    rw [summaryStats_eq]
  · with_unfolding_all decide
  · with_unfolding_all decide
  · with_unfolding_all decide
  · with_unfolding_all decide

/-- C10: every division of the formatters is guarded: a macros line that
renders the value-over-goal percentage always carries a nonzero goal
divisor; the water progress percentage (whose only divisors are the
nonzero constants 29.5735 and 64) is rendered exactly when the water
amount is positive; the remaining conversion constants are nonzero; and
the range summary renders the averaging-and-percentage report (whose
divisor is the yielded-day count) only when that count is positive,
every other outcome being the explanatory no-data message or an error
text. -/
theorem c10_division_safety :
    (∀ t g n dn u, lineDivisorSafe (format_nutrient t g n dn u)) ∧
    (∀ ml : ℚ, (0 < ml ∧ waterProgressSection ml
        = "*Progress: " ++ fmt0 (ml / 29.5735 / 64 * 100) ++ "% of recommended amount*\n") ∨
      (¬ 0 < ml ∧ waterProgressSection ml = "")) ∧
    ((64 : ℚ) ≠ 0 ∧ (29.5735 : ℚ) ≠ 0 ∧ (236.588 : ℚ) ≠ 0) ∧
    (∀ today gc fetch sd ed, ∃ msg,
      get_date_range_summary today gc fetch sd ed = text_response msg ∧
      ((∃ err, msg = "Error retrieving date range summary: " ++ err) ∨
       msg = "No data available for the specified date range." ∨
       (∃ s t daily, 0 < daily.length ∧
         daily = (get_date_range fetch (dateOrd s) (dateOrd t)).map snapshot ∧
         msg = renderRangeSummary s t daily))) := by
  refine ⟨?_, ?_, ⟨by norm_num, by norm_num, by norm_num⟩, ?_⟩
  · intro t g n dn u
    unfold format_nutrient
    by_cases h : lookupD g n 0 > 0
    · rw [if_pos h]
      exact ne_of_gt h
    · rw [if_neg h]
      trivial
  · intro ml
    by_cases h : ml > 0
    · exact Or.inl ⟨h, by unfold waterProgressSection; rw [if_pos h]⟩
    · exact Or.inr ⟨h, by unfold waterProgressSection; rw [if_neg h]⟩
  · intro today gc fetch sd ed
    cases hp1 : parse_date today (some sd) with
    | error e =>
        refine ⟨"Error retrieving date range summary: " ++ e, ?_, Or.inl ⟨e, rfl⟩⟩
        simp [get_date_range_summary, hp1, Except.instMonad, Except.bind, bind]
    | ok s =>
      cases hp2 : parse_date today (some ed) with
      | error e =>
          refine ⟨"Error retrieving date range summary: " ++ e, ?_, Or.inl ⟨e, rfl⟩⟩
          simp [get_date_range_summary, hp1, hp2, Except.instMonad, Except.bind, bind]
      | ok t =>
        by_cases hcmp : dateOrd s > dateOrd t
        · refine ⟨"Error retrieving date range summary: " ++
            "Start date must be before or equal to end date", ?_,
            Or.inl ⟨"Start date must be before or equal to end date", rfl⟩⟩
          simp [get_date_range_summary, hp1, hp2, hcmp, Except.instMonad, Except.bind, bind]
        · cases hgc : gc with
          | error e =>
              refine ⟨"Error retrieving date range summary: " ++ e, ?_, Or.inl ⟨e, rfl⟩⟩
              simp [get_date_range_summary, hp1, hp2, hcmp, hgc,
                Except.instMonad, Except.bind, bind]
          | ok c =>
            by_cases hemp : ((get_date_range fetch (dateOrd s) (dateOrd t)).map snapshot).isEmpty
            · refine ⟨"No data available for the specified date range.", ?_, Or.inr (Or.inl rfl)⟩
              simp [get_date_range_summary, hp1, hp2, hcmp, hgc, hemp,
                Except.instMonad, Except.bind, bind]
            · refine ⟨renderRangeSummary s t
                  ((get_date_range fetch (dateOrd s) (dateOrd t)).map snapshot), ?_,
                Or.inr (Or.inr ⟨s, t, _, ?_, rfl, rfl⟩)⟩
              · simp [get_date_range_summary, hp1, hp2, hcmp, hgc, hemp,
                  Except.instMonad, Except.bind, bind]
              · rw [List.isEmpty_iff] at hemp
                exact List.length_pos.mpr hemp

set_option maxRecDepth 8000 in
/-- C4: when a valid range yields no days the tool answers the single
explanatory no-data message rather than an error; over any nonempty
yielded snapshot list the five reported averages are the arithmetic
means (average times count equals sum) of exactly the yielded days; the
three-day scenario with calories 2000, 2200 and 1800 averages to 2000;
and when the middle of three days fails to fetch, the rendered summary
counts two days and uses 2 as the denominator of both tracking-stat
percentages. -/
theorem c4_range_summary :
    (∀ today c fetch sd ed s t, parse_date today (some sd) = .ok s →
      parse_date today (some ed) = .ok t → ¬ dateOrd s > dateOrd t →
      get_date_range fetch (dateOrd s) (dateOrd t) = [] →
      get_date_range_summary today (.ok c) fetch sd ed
        = text_response "No data available for the specified date range.") ∧
    (∀ daily : List DaySnapshot, daily ≠ [] →
      avg_calories daily * daily.length = (daily.map (·.calories)).sum ∧
      avg_carbs daily * daily.length = (daily.map (·.carbs)).sum ∧
      avg_fat daily * daily.length = (daily.map (·.fat)).sum ∧
      avg_protein daily * daily.length = (daily.map (·.protein)).sum ∧
      avg_water_ml daily * daily.length = (daily.map (·.water_ml)).sum) ∧
    avg_calories ([rangeDayA, rangeDayB, rangeDayC].map snapshot) = 2000 ∧
    (strContains
        (toolText (get_date_range_summary today0 (.ok client0) fetchSkip
          "2024-01-01" "2024-01-03")) "(2 days)" = true ∧
     strContains
        (toolText (get_date_range_summary today0 (.ok client0) fetchSkip
          "2024-01-01" "2024-01-03")) "- **Days Completed**: 1/2 (50%)" = true ∧
     strContains
        (toolText (get_date_range_summary today0 (.ok client0) fetchSkip
          "2024-01-01" "2024-01-03")) "- **Days with Exercise**: 1/2 (50%)" = true) ∧
    strContains
        (toolText (get_date_range_summary today0 (.ok client0) fetchAll3
          "2024-01-01" "2024-01-03")) "- **Calories**: 2000 kcal/day" = true := by
  refine ⟨?_, ?_, ?_, ⟨?_, ?_, ?_⟩, ?_⟩
  · intro today c fetch sd ed s t h1 h2 h3 h4
    have hemp : ((get_date_range fetch (dateOrd s) (dateOrd t)).map snapshot).isEmpty = true := by
      rw [h4]
      rfl
    simp [get_date_range_summary, h1, h2, h3, hemp, Except.instMonad, Except.bind, bind]
  · intro daily hne
    have hlen : (daily.length : ℚ) ≠ 0 := by
      have := List.length_pos.mpr hne
      exact_mod_cast Nat.pos_iff_ne_zero.mp this
    refine ⟨?_, ?_, ?_, ?_, ?_⟩ <;>
      simp only [avg_calories, avg_carbs, avg_fat, avg_protein, avg_water_ml] <;>
      exact div_mul_cancel₀ _ hlen
  · with_unfolding_all decide
  · with_unfolding_all decide
  · with_unfolding_all decide
  · with_unfolding_all decide
  · with_unfolding_all decide

/-- C4 witness: the no-data branch at a concrete always-failing fetch,
and the mean property at a concrete one-day list. -/
theorem c4_range_summary_witness :
    get_date_range_summary today0 (.ok client0) fetchFailAll "2024-01-01" "2024-01-03"
      = text_response "No data available for the specified date range." ∧
    avg_calories [snapshot rangeDayA] * [snapshot rangeDayA].length
      = ([snapshot rangeDayA].map (·.calories)).sum :=
  ⟨c4_range_summary.1 today0 client0 fetchFailAll "2024-01-01" "2024-01-03"
      ⟨2024, 1, 1⟩ ⟨2024, 1, 3⟩ rfl rfl (by decide) (by with_unfolding_all decide),
   (c4_range_summary.2.1 [snapshot rangeDayA] (by decide)).1⟩

/-- C8 counterexample: the claim says 2000 ml renders as 67 oz, but
2000 / 29.5735 is 67.628..., which the `:.0f` rendering rounds to 68:
the water report for 2000 ml contains no occurrence of "67 oz" and shows
"68 oz". -/
theorem c8_water_conversion_counterexample :
    fmt0 ((2000 : ℚ) / 29.5735) = "68" ∧
    strContains (render_water_intake today0 2000) "67 oz" = false ∧
    strContains (render_water_intake today0 2000) "68 oz" = true := by
  refine ⟨?_, ?_, ?_⟩ <;> with_unfolding_all decide

/-- C8 amended: the conversions divide by the constants 29.5735 ml per
ounce and 236.588 ml per cup (so multiplying back by the constant
recovers the milliliter amount exactly), and a water amount of 2000 ml
renders as 68 oz (rounded to the nearest integer) and 8.5 cups (rounded
to one decimal). -/
theorem c8_water_conversion_amended :
    ((29.5735 : ℚ) = 295735 / 10000 ∧ (236.588 : ℚ) = 236588 / 1000) ∧
    (∀ ml : ℚ, ml / 29.5735 * 29.5735 = ml ∧ ml / 236.588 * 236.588 = ml) ∧
    fmt0 ((2000 : ℚ) / 29.5735) = "68" ∧
    fmt1 ((2000 : ℚ) / 236.588) = "8.5" ∧
    strContains (render_water_intake today0 2000)
      "**Amount**: 68 oz (8.5 cups / 2000 ml)" = true := by
  refine ⟨⟨by norm_num, by norm_num⟩, ?_, ?_, ?_, ?_⟩
  · intro ml
    constructor <;> exact div_mul_cancel₀ _ (by norm_num)
  · with_unfolding_all decide
  · with_unfolding_all decide
  · with_unfolding_all decide

theorem exists_mem_ite_singleton {α : Type} (c : Prop) [Decidable c] (x : α) (P : α → Prop) :
    (∃ l ∈ (if c then [x] else []), P l) ↔ c ∧ P x := by
  by_cases h : c <;> simp [h]

/-- C6: in the macros report each of calories, carbohydrates, protein,
fat, fiber and sugar is always rendered, in the value-over-goal form
with percent equal to value divided by goal times 100 exactly when its
goal is positive and as the bare value otherwise, with an absent totals
key read as value 0; whereas each fat sub-line (saturated,
polyunsaturated, monounsaturated, trans) and each micronutrient line
(sodium, potassium, cholesterol, vitamin a, vitamin c, calcium, iron)
appears in the rendered line list exactly when its key exists in the
totals mapping, and is absent from the output when the key is wholly
absent. -/
theorem c6_macros_rendering (t g : List (String × ℚ)) :
    (∀ n dn u, 0 < lookupD g n 0 →
      format_nutrient t g n dn u = .withGoal dn (lookupD t n 0) (lookupD g n 0) u) ∧
    (∀ n dn u, ¬ 0 < lookupD g n 0 →
      format_nutrient t g n dn u = .bare dn (lookupD t n 0) u) ∧
    (∀ dn v goal u, renderNutrientLine (.withGoal dn v goal u)
      = "- **" ++ dn ++ "**: " ++ fmt0 v ++ u ++ " / " ++ fmt0 goal ++ u ++
        " (" ++ fmt0 (v / goal * 100) ++ "%)\n") ∧
    (∀ dn v u, renderNutrientLine (.bare dn v u)
      = "- **" ++ dn ++ "**: " ++ fmt0 v ++ u ++ "\n") ∧
    (∀ n dn u, t.lookup n = none → lineValue (format_nutrient t g n dn u) = 0) ∧
    ((∃ v, NutrientLine.fatSub "Saturated" v ∈ macroLines t g) ↔
      (t.lookup "saturated fat").isSome = true) ∧
    ((∃ v, NutrientLine.fatSub "Polyunsaturated" v ∈ macroLines t g) ↔
      (t.lookup "polyunsaturated fat").isSome = true) ∧
    ((∃ v, NutrientLine.fatSub "Monounsaturated" v ∈ macroLines t g) ↔
      (t.lookup "monounsaturated fat").isSome = true) ∧
    ((∃ v, NutrientLine.fatSub "Trans" v ∈ macroLines t g) ↔
      (t.lookup "trans fat").isSome = true) ∧
    ((∃ l ∈ microLines t g, lineDisplay l = "Sodium") ↔
      (t.lookup "sodium").isSome = true) ∧
    ((∃ l ∈ microLines t g, lineDisplay l = "Potassium") ↔
      (t.lookup "potassium").isSome = true) ∧
    ((∃ l ∈ microLines t g, lineDisplay l = "Cholesterol") ↔
      (t.lookup "cholesterol").isSome = true) ∧
    ((∃ l ∈ microLines t g, lineDisplay l = "Vitamin A") ↔
      (t.lookup "vitamin a").isSome = true) ∧
    ((∃ l ∈ microLines t g, lineDisplay l = "Vitamin C") ↔
      (t.lookup "vitamin c").isSome = true) ∧
    ((∃ l ∈ microLines t g, lineDisplay l = "Calcium") ↔
      (t.lookup "calcium").isSome = true) ∧
    ((∃ l ∈ microLines t g, lineDisplay l = "Iron") ↔
      (t.lookup "iron").isSome = true) ∧
    (∀ dn, dn ∈ (["Calories", "Carbohydrates", "Protein", "Fat", "Fiber", "Sugar"] : List String) →
      ∃ l ∈ macroLines t g, lineDisplay l = dn) := by
  refine ⟨?_, ?_, fun dn v goal u => rfl, fun dn v u => rfl, ?_, ?_, ?_, ?_, ?_,
    ?_, ?_, ?_, ?_, ?_, ?_, ?_, ?_⟩
  · intro n dn u h
    unfold format_nutrient
    rw [if_pos h]
  · intro n dn u h
    unfold format_nutrient
    rw [if_neg h]
  · intro n dn u h
    simp only [format_nutrient]
    split <;> simp [lineValue, lookupD, h]
  · simp only [macroLines, fatSubLines, List.mem_append, List.mem_cons, List.not_mem_nil,
      mem_ite_singleton, or_false, false_or]
    simp [fatSub_ne_format, lookupD]
  · simp only [macroLines, fatSubLines, List.mem_append, List.mem_cons, List.not_mem_nil,
      mem_ite_singleton, or_false, false_or]
    simp [fatSub_ne_format, lookupD]
  · simp only [macroLines, fatSubLines, List.mem_append, List.mem_cons, List.not_mem_nil,
      mem_ite_singleton, or_false, false_or]
    simp [fatSub_ne_format, lookupD]
  · simp only [macroLines, fatSubLines, List.mem_append, List.mem_cons, List.not_mem_nil,
      mem_ite_singleton, or_false, false_or]
    simp [fatSub_ne_format, lookupD]
  · simp only [microLines, List.mem_append, exists_or, or_and_right, exists_mem_ite_singleton,
      lineDisplay_format]
    simp
  · simp only [microLines, List.mem_append, exists_or, or_and_right, exists_mem_ite_singleton,
      lineDisplay_format]
    simp
  · simp only [microLines, List.mem_append, exists_or, or_and_right, exists_mem_ite_singleton,
      lineDisplay_format]
    simp
  · simp only [microLines, List.mem_append, exists_or, or_and_right, exists_mem_ite_singleton,
      lineDisplay_format]
    simp
  · simp only [microLines, List.mem_append, exists_or, or_and_right, exists_mem_ite_singleton,
      lineDisplay_format]
    simp
  · simp only [microLines, List.mem_append, exists_or, or_and_right, exists_mem_ite_singleton,
      lineDisplay_format]
    simp
  · simp only [microLines, List.mem_append, exists_or, or_and_right, exists_mem_ite_singleton,
      lineDisplay_format]
    simp
  · intro dn hdn
    simp only [List.mem_cons, List.not_mem_nil, or_false] at hdn
    rcases hdn with rfl | rfl | rfl | rfl | rfl | rfl
    · exact ⟨format_nutrient t g "calories" "Calories" "kcal",
        by simp [macroLines], lineDisplay_format t g _ _ _⟩
    · exact ⟨format_nutrient t g "carbohydrates" "Carbohydrates" "g",
        by simp [macroLines], lineDisplay_format t g _ _ _⟩
    · exact ⟨format_nutrient t g "protein" "Protein" "g",
        by simp [macroLines], lineDisplay_format t g _ _ _⟩
    · exact ⟨format_nutrient t g "fat" "Fat" "g",
        by simp [macroLines], lineDisplay_format t g _ _ _⟩
    · exact ⟨format_nutrient t g "fiber" "Fiber" "g",
        by simp [macroLines], lineDisplay_format t g _ _ _⟩
    · exact ⟨format_nutrient t g "sugar" "Sugar" "g",
        by simp [macroLines], lineDisplay_format t g _ _ _⟩

set_option maxRecDepth 8000 in
/-- C6 witness: the goal-relative branch at the concrete sample day
(calories 1800 against a positive goal of 2000). -/
theorem c6_macros_rendering_witness :
    format_nutrient dayDS.totals dayDS.goals "calories" "Calories" "kcal"
      = .withGoal "Calories" 1800 2000 "kcal" := by
  have h := (c6_macros_rendering dayDS.totals dayDS.goals).1 "calories" "Calories" "kcal"
    (by with_unfolding_all decide)
  rw [h]
  with_unfolding_all decide
